import Mathlib

/-!
Verification of the rating/statistics aggregation core of the game-catalog
backend (Game / Review / Category models).

Shallow embedding conventions:
* JavaScript numbers holding counts are modelled as `ℕ`; the favourite
  counter is modelled as `ℤ` so that "never negative" is a real statement;
  averages and scores are modelled as `ℚ` (exact arithmetic, matching the
  spec's "exactly, barring floating-point tolerance" reading).
* A review's rating is validated to an integer 1–5 by the schema, so it is
  modelled by the five-constructor type `Rating`.
* `Math.round x` in JavaScript rounds half away from zero for non-negative
  inputs; on `ℚ` this is `⌊x + 1/2⌋`, which is what `jsRound` implements.
* Mongoose `save()` writes the document's in-memory (possibly stale) field
  values back to the store; the store state after a handler is the state
  written by the last `save()`.
-/

/-- A validated review rating: an integer from 1 to 5
(`reviewSchema.rating` has `min: 1, max: 5`). -/
inductive Rating
  | one
  | two
  | three
  | four
  | five
deriving DecidableEq, Repr

/-- The numeric value of a star rating. -/
def Rating.toNat : Rating → ℕ
  | .one => 1
  | .two => 2
  | .three => 3
  | .four => 4
  | .five => 5

/-- `rating.distribution` of a Game: one bucket per star value
(`'1'`..`'5'`, each defaulting to 0). -/
structure Distribution where
  d1 : ℕ
  d2 : ℕ
  d3 : ℕ
  d4 : ℕ
  d5 : ℕ
deriving DecidableEq, Repr

/-- The all-zero distribution (every bucket has schema default 0). -/
def Distribution.empty : Distribution := ⟨0, 0, 0, 0, 0⟩

/-- `this.rating.distribution[newRating] += 1`. -/
def Distribution.bump (d : Distribution) : Rating → Distribution
  | .one => { d with d1 := d.d1 + 1 }
  | .two => { d with d2 := d.d2 + 1 }
  | .three => { d with d3 := d.d3 + 1 }
  | .four => { d with d4 := d.d4 + 1 }
  | .five => { d with d5 := d.d5 + 1 }

/-- `Object.keys(this.rating.distribution).reduce((sum, rating) =>
sum + parseInt(rating) * this.rating.distribution[rating], 0)`:
the sum of star value times bucket count. -/
def Distribution.total (d : Distribution) : ℕ :=
  1 * d.d1 + 2 * d.d2 + 3 * d.d3 + 4 * d.d4 + 5 * d.d5

/-- The sum of the five bucket counts (`sum(distribution.values())`). -/
def Distribution.bucketSum (d : Distribution) : ℕ :=
  d.d1 + d.d2 + d.d3 + d.d4 + d.d5

/-- The `rating` sub-document of a Game:
`{average, count, distribution}`. -/
structure GameRating where
  average : ℚ
  count : ℕ
  distribution : Distribution
deriving DecidableEq, Repr

/-- The `stats` sub-document of a Game:
`{playCount, totalPlayTime, averagePlayTime, favoriteCount}`. -/
structure GameStats where
  playCount : ℕ
  totalPlayTime : ℕ
  averagePlayTime : ℚ
  favoriteCount : ℤ
deriving DecidableEq, Repr

/-- Game `status` enum: `['active', 'inactive', 'maintenance']`. -/
inductive GStatus
  | active
  | inactive
  | maintenance
deriving DecidableEq, Repr

/-- The fields of a Game document relevant to the aggregation core:
its category reference, status, rating sub-document and stats
sub-document. Category ids are modelled as `ℕ`. -/
structure Game where
  category : ℕ
  status : GStatus
  rating : GameRating
  stats : GameStats
deriving DecidableEq, Repr

/-- A freshly created Game document under category `cid`: every rating and
stats field takes its schema default (0), status defaults to `active`. -/
def freshGame (cid : ℕ) : Game :=
  { category := cid
    status := GStatus.active
    rating := { average := 0, count := 0, distribution := Distribution.empty }
    stats := { playCount := 0, totalPlayTime := 0, averagePlayTime := 0, favoriteCount := 0 } }

/-- `gameSchema.methods.updateRating(newRating)`: increments the
distribution bucket for `newRating`, recomputes the average as
(sum of star-value × bucket-count over the updated distribution)
divided by `count + 1`, then increments `count`. -/
def Game.updateRating (g : Game) (newRating : Rating) : Game :=
  let dist := g.rating.distribution.bump newRating
  let totalRating : ℕ := dist.total
  { g with rating :=
    { average := (totalRating : ℚ) / ((g.rating.count : ℚ) + 1)
      count := g.rating.count + 1
      distribution := dist } }

/-- `gameSchema.methods.incrementFavorites()`: `favoriteCount += 1`. -/
def Game.incrementFavorites (g : Game) : Game :=
  { g with stats := { g.stats with favoriteCount := g.stats.favoriteCount + 1 } }

/-- `gameSchema.methods.decrementFavorites()`: decrements `favoriteCount`
only when it is strictly positive, otherwise leaves it unchanged. -/
def Game.decrementFavorites (g : Game) : Game :=
  if g.stats.favoriteCount > 0 then
    { g with stats := { g.stats with favoriteCount := g.stats.favoriteCount - 1 } }
  else g

/-- `gameSchema.virtual('ratingLevel')`: the step function from the
average to the textual level. -/
def ratingLevel (average : ℚ) : String :=
  if average ≥ 4.5 then "excellent"
  else if average ≥ 4.0 then "very-good"
  else if average ≥ 3.5 then "good"
  else if average ≥ 3.0 then "fair"
  else "poor"

/-- `gameSchema.virtual('popularity')`: play score + rating score +
favourite score, each a weighted read of the current fields. -/
def Game.popularity (g : Game) : ℚ :=
  let playScore := (g.stats.playCount : ℚ) * 0.4
  let ratingScore := g.rating.average * (g.rating.count : ℚ) * 0.3
  let favoriteScore := (g.stats.favoriteCount : ℚ) * 0.3
  playScore + ratingScore + favoriteScore

/-- The full create-review path for one submission against the game state
`db` held in the store (`POST /api/reviews` handler in
`routes/users.js` together with `reviewSchema.post('save')`):

1. the handler fetches the game (`const gameExists = await Game.findById(game)`),
   obtaining an in-memory snapshot of `db`;
2. `Review.create` fires the post-save hook, which fetches the game afresh
   (still `db` at that point), applies `updateRating(this.rating)` and saves,
   so the store now holds `db.updateRating r`;
3. the handler then applies `updateRating(rating)` to its *stale* snapshot
   `gameExists` and saves, so the store finally holds the snapshot's update
   `gameExists.updateRating r` (the save writes the snapshot's modified
   rating fields over the hook's; the buckets neither touched are equal in
   both documents).

The new review is created with schema default `status: 'active'`, so the
hook's `if (this.status === 'active')` guard passes. -/
def createReviewPath (db : Game) (r : Rating) : Game :=
  let gameExists := db
  let _afterHook := db.updateRating r
  let afterHandler := gameExists.updateRating r
  afterHandler

/-- Rebuild of `game.rating.distribution` in
`reviewSchema.post('findOneAndDelete')`: reset to all zeros, then
`reviews.forEach(review => game.rating.distribution[review.rating]++)`. -/
def rebuildDistribution (reviews : List Rating) : Distribution :=
  reviews.foldl Distribution.bump Distribution.empty

/-- `reviewSchema.post('findOneAndDelete')` acting on the deleted review's
game, given `reviews`, the list of ratings of the remaining *active*
reviews of that game: when `reviews.length > 0` it sets
`average = totalRating / reviews.length`, `count = reviews.length` and
rebuilds the distribution, then saves; when no active review remains it
performs no write, leaving the game state as it was. -/
def deleteRescan (g : Game) (reviews : List Rating) : Game :=
  if reviews.length > 0 then
    { g with rating :=
      { average := ((reviews.map Rating.toNat).sum : ℚ) / (reviews.length : ℚ)
        count := reviews.length
        distribution := rebuildDistribution reviews } }
  else g

/-- The `stats` sub-document of a Category:
`{gameCount, totalPlayCount, averageRating}`. -/
structure CatStats where
  gameCount : ℕ
  totalPlayCount : ℕ
  averageRating : ℚ
deriving DecidableEq, Repr

/-- JavaScript `Math.round` on an exact rational: round half away from
zero; for the non-negative values arising here this is `⌊x + 1/2⌋`. -/
def jsRound (q : ℚ) : ℤ := ⌊q + 1 / 2⌋

/-- The aggregation pipeline's `$match` predicate in
`categorySchema.methods.updateStats`:
`{ category: this._id, status: 'active' }`. -/
def matchesCategory (cid : ℕ) (g : Game) : Bool :=
  g.category == cid && g.status == GStatus.active

/-- `categorySchema.methods.updateStats()` for the category with id `cid`,
given `games`, the current Game population in the store, and `prev`, the
category's current cached stats. The aggregation groups the games matching
`{category: cid, status: 'active'}`; when the group is non-empty the new
stats are its size, the sum of the games' `stats.playCount`, and
`Math.round(avg('rating.average') * 10) / 10`; otherwise all three stats
are reset to 0. The previous cached stats are overwritten either way. -/
def updateStats (cid : ℕ) (games : List Game) (_prev : CatStats) : CatStats :=
  let matched := games.filter (matchesCategory cid)
  if matched.length > 0 then
    { gameCount := matched.length
      totalPlayCount := (matched.map (fun g => g.stats.playCount)).sum
      averageRating :=
        (jsRound ((matched.map (fun g => g.rating.average)).sum / (matched.length : ℚ) * 10) : ℚ) / 10 }
  else
    { gameCount := 0, totalPlayCount := 0, averageRating := 0 }

/-- A report entry in `reviewSchema.reports`: reporting user, reason and
optional description (reasons are `spam | inappropriate | offensive |
other`, modelled as an opaque tag since their identity is irrelevant to
the claims; user ids are modelled as `ℕ`). -/
structure Report where
  user : ℕ
  reason : String
  description : String
deriving DecidableEq, Repr

/-- The `helpful` sub-document of a Review: `{count, users}`. -/
structure Helpful where
  count : ℕ
  users : List ℕ
deriving DecidableEq, Repr

/-- The fields of a Review document relevant to the claims: its rating,
helpful-vote sub-state and report list. -/
structure Review where
  rating : Rating
  helpful : Helpful
  reports : List Report
deriving DecidableEq, Repr

/-- `reviewSchema.methods.markHelpful(userId)`: when `userId` is not yet
in `helpful.users`, push it and set `helpful.count` to the new list
length; otherwise resolve without change. -/
def Review.markHelpful (rv : Review) (userId : ℕ) : Review :=
  if userId ∈ rv.helpful.users then rv
  else
    let users := rv.helpful.users ++ [userId]
    { rv with helpful := { count := users.length, users := users } }

/-- `reviewSchema.methods.unmarkHelpful(userId)`: when `userId` occurs in
`helpful.users`, splice out its first occurrence (`indexOf` + `splice`)
and set `helpful.count` to the new list length; otherwise resolve without
change. -/
def Review.unmarkHelpful (rv : Review) (userId : ℕ) : Review :=
  if userId ∈ rv.helpful.users then
    let users := rv.helpful.users.erase userId
    { rv with helpful := { count := users.length, users := users } }
  else rv

/-- `reviewSchema.methods.report(userId, reason, description)`: when no
existing report entry has this user, push a new entry; otherwise resolve
without change. -/
def Review.report (rv : Review) (userId : ℕ) (reason : String)
    (description : String) : Review :=
  if rv.reports.any (fun rep => rep.user == userId) then rv
  else { rv with reports := rv.reports ++ [{ user := userId, reason := reason, description := description }] }

/-! ## Favourite-counter interleavings (C4) -/

/-- One step of an interleaving of favourite-counter calls. -/
inductive FavOp
  | inc
  | dec
deriving DecidableEq, Repr

/-- Apply one favourite-counter call to a game. -/
def applyFavOp (g : Game) : FavOp → Game
  | .inc => g.incrementFavorites
  | .dec => g.decrementFavorites

/-- Apply an interleaving of favourite-counter calls, in order. -/
def applyFavOps (g : Game) (ops : List FavOp) : Game :=
  ops.foldl applyFavOp g

/-- A sequence of full create-review submissions against the same game,
oldest first: each submission runs the whole `POST /api/reviews` path
(including the post-save hook) against the store state left by the
previous one. -/
def submitAll (db : Game) (rs : List Rating) : Game :=
  rs.foldl createReviewPath db

/-- Reachable rating states of a Game under the repository's rating
mutations: a fresh document, an insertion through the full create-review
path, and the deletion-path rescan (with the remaining active reviews'
ratings as argument). -/
inductive Reachable : Game → Prop
  | fresh (cid : ℕ) : Reachable (freshGame cid)
  | insert {g : Game} (r : Rating) : Reachable g → Reachable (createReviewPath g r)
  | delete {g : Game} (reviews : List Rating) :
      Reachable g → Reachable (deleteRescan g reviews)

/-! ## Theorems -/

/-- C6: `ratingLevel` is a pure, total, deterministic step function of the
average: it returns "excellent" iff average ≥ 4.5, else "very-good" iff
average ≥ 4.0, else "good" iff average ≥ 3.5, else "fair" iff
average ≥ 3.0, else "poor"; in particular 4.5 ↦ "excellent",
4.49999 ↦ "very-good", 3.0 ↦ "fair" and 0 ↦ "poor". -/
theorem C6_ratingLevel_step_function :
    (∀ a : ℚ,
      (ratingLevel a = "excellent" ↔ 4.5 ≤ a) ∧
      (ratingLevel a = "very-good" ↔ 4 ≤ a ∧ a < 4.5) ∧
      (ratingLevel a = "good" ↔ 3.5 ≤ a ∧ a < 4) ∧
      (ratingLevel a = "fair" ↔ 3 ≤ a ∧ a < 3.5) ∧
      (ratingLevel a = "poor" ↔ a < 3)) ∧
    ratingLevel 4.5 = "excellent" ∧
    ratingLevel (449999 / 100000) = "very-good" ∧
    ratingLevel 3 = "fair" ∧
    ratingLevel 0 = "poor" := by
  refine ⟨fun a => ?_, by norm_num [ratingLevel], by norm_num [ratingLevel],
    by norm_num [ratingLevel], by norm_num [ratingLevel]⟩
  unfold ratingLevel
  split_ifs with h1 h2 h3 h4 <;>
    refine ⟨?_, ?_, ?_, ?_, ?_⟩ <;>
    simp_all <;>
    first
      | linarith
      | (constructor <;> linarith)
      | (intro h; linarith)
      | (rintro h h2; linarith)

/-- C8: the derived popularity score equals
`playCount * 0.4 + average * count * 0.3 + favoriteCount * 0.3`, and it is
recomputed fresh from those current fields on every read: any two game
states agreeing on the three inputs yield the same score (nothing else,
in particular no persisted copy, influences it). -/
theorem C8_popularity_formula :
    (∀ g : Game, g.popularity =
      (g.stats.playCount : ℚ) * 0.4
        + g.rating.average * (g.rating.count : ℚ) * 0.3
        + (g.stats.favoriteCount : ℚ) * 0.3) ∧
    (∀ g g' : Game, g.stats.playCount = g'.stats.playCount →
      g.rating.average = g'.rating.average → g.rating.count = g'.rating.count →
      g.stats.favoriteCount = g'.stats.favoriteCount →
      g.popularity = g'.popularity) := by
  refine ⟨fun g => rfl, fun g g' h1 h2 h3 h4 => ?_⟩
  unfold Game.popularity
  rw [h1, h2, h3, h4]

/-- Witness for C8 at two concrete game states agreeing on the three
input fields. -/
theorem C8_popularity_formula_witness :
    (freshGame 0).popularity = (freshGame 1).popularity :=
  C8_popularity_formula.2 (freshGame 0) (freshGame 1) rfl rfl rfl rfl

/-- Preservation lemma: one favourite-counter call keeps the counter
non-negative. -/
theorem applyFavOp_nonneg {g : Game} (h : 0 ≤ g.stats.favoriteCount)
    (op : FavOp) : 0 ≤ (applyFavOp g op).stats.favoriteCount := by
  cases op with
  | inc =>
    simp only [applyFavOp, Game.incrementFavorites]
    omega
  | dec =>
    simp only [applyFavOp, Game.decrementFavorites]
    split_ifs with hpos
    · simp only []
      omega
    · exact h

/-- Folded preservation: an interleaving of favourite-counter calls keeps
the counter non-negative. -/
theorem applyFavOps_nonneg (ops : List FavOp) :
    ∀ g : Game, 0 ≤ g.stats.favoriteCount →
      0 ≤ (applyFavOps g ops).stats.favoriteCount := by
  induction ops with
  | nil => exact fun g h => h
  | cons op ops ih =>
    intro g h
    exact ih (applyFavOp g op) (applyFavOp_nonneg h op)

/-- C4: under every interleaving of `incrementFavorites` and
`decrementFavorites` calls, `stats.favoriteCount` never becomes negative
(both from a fresh game and from any state with a non-negative counter);
`decrementFavorites` at `favoriteCount == 0` is a no-op, not an error;
and `incrementFavorites` adds exactly 1. -/
theorem C4_favoriteCount_never_negative :
    (∀ cid : ℕ, ∀ ops : List FavOp,
      0 ≤ (applyFavOps (freshGame cid) ops).stats.favoriteCount) ∧
    (∀ g : Game, ∀ ops : List FavOp, 0 ≤ g.stats.favoriteCount →
      0 ≤ (applyFavOps g ops).stats.favoriteCount) ∧
    (∀ g : Game, g.stats.favoriteCount = 0 → g.decrementFavorites = g) ∧
    (∀ g : Game,
      g.incrementFavorites.stats.favoriteCount = g.stats.favoriteCount + 1) := by
  refine ⟨fun cid ops => applyFavOps_nonneg ops _ le_rfl,
    fun g ops h => applyFavOps_nonneg ops g h, fun g h => ?_, fun g => rfl⟩
  unfold Game.decrementFavorites
  rw [h]
  simp

/-- Witness for C4 at a concrete interleaving (decrement on the floor,
then increment, then two decrements). -/
theorem C4_favoriteCount_never_negative_witness :
    (0 ≤ (applyFavOps (freshGame 0) [FavOp.dec, FavOp.inc, FavOp.dec, FavOp.dec]).stats.favoriteCount) ∧
    (freshGame 0).decrementFavorites = freshGame 0 :=
  ⟨C4_favoriteCount_never_negative.1 0 [FavOp.dec, FavOp.inc, FavOp.dec, FavOp.dec],
   C4_favoriteCount_never_negative.2.2.1 (freshGame 0) rfl⟩

/-- The full create-review path leaves the store in the state of a single
`updateRating` application: the handler's save of its stale snapshot
writes the same rating fields the hook's save wrote. -/
theorem createReviewPath_eq_updateRating (db : Game) (r : Rating) :
    createReviewPath db r = db.updateRating r := rfl

/-- Bumping a bucket adds the bucket's star value to the weighted total. -/
theorem Distribution.bump_total (d : Distribution) (r : Rating) :
    (d.bump r).total = d.total + r.toNat := by
  cases r <;> simp [Distribution.bump, Distribution.total, Rating.toNat] <;> ring

/-- Bumping a bucket adds one to the sum of the bucket counts. -/
theorem Distribution.bump_bucketSum (d : Distribution) (r : Rating) :
    (d.bump r).bucketSum = d.bucketSum + 1 := by
  cases r <;> simp [Distribution.bump, Distribution.bucketSum] <;> ring

/-- Each submission of the create-review path increments `rating.count`
by exactly one, so a sequence of submissions adds its length. -/
theorem submitAll_count (rs : List Rating) :
    ∀ db : Game, (submitAll db rs).rating.count = db.rating.count + rs.length := by
  induction rs with
  | nil => intro db; simp [submitAll]
  | cons r rs ih =>
    intro db
    show (submitAll (createReviewPath db r) rs).rating.count = _
    rw [ih]
    simp [createReviewPath, Game.updateRating]
    omega

/-- A sequence of submissions adds the submitted star values to the
distribution's weighted total. -/
theorem submitAll_total (rs : List Rating) :
    ∀ db : Game, (submitAll db rs).rating.distribution.total
      = db.rating.distribution.total + (rs.map Rating.toNat).sum := by
  induction rs with
  | nil => intro db; simp [submitAll]
  | cons r rs ih =>
    intro db
    show (submitAll (createReviewPath db r) rs).rating.distribution.total = _
    rw [ih]
    show (db.updateRating r).rating.distribution.total + _ = _
    simp only [Game.updateRating]
    rw [Distribution.bump_total]
    simp [List.sum_cons]
    omega

/-- C1: starting from a fresh game, a sequence of N create-review
submissions with ratings r1..rN (each running the full POST handler plus
post-save hook path) leaves `rating.count = N` and `rating.average` equal
to the exact arithmetic mean of r1..rN. -/
theorem C1_sequence_of_reviews_count_and_mean (cid : ℕ) (rs : List Rating)
    (h : rs ≠ []) :
    (submitAll (freshGame cid) rs).rating.count = rs.length ∧
    (submitAll (freshGame cid) rs).rating.average
      = ((rs.map Rating.toNat).sum : ℚ) / (rs.length : ℚ) := by
  refine ⟨by rw [submitAll_count]; simp [freshGame], ?_⟩
  rcases rs.eq_nil_or_concat with rfl | ⟨rs', r, rfl⟩
  · exact absurd rfl h
  simp only [List.concat_eq_append]
  have hfold : submitAll (freshGame cid) (rs' ++ [r])
      = createReviewPath (submitAll (freshGame cid) rs') r := by
    simp [submitAll, List.foldl_append]
  rw [hfold, createReviewPath_eq_updateRating]
  show ((((submitAll (freshGame cid) rs').rating.distribution.bump r).total : ℚ)
      / (((submitAll (freshGame cid) rs').rating.count : ℚ) + 1)) = _
  rw [Distribution.bump_total, submitAll_total, submitAll_count]
  show ((((0 : ℕ) + (rs'.map Rating.toNat).sum + r.toNat : ℕ) : ℚ)
      / ((((0 : ℕ) + rs'.length : ℕ) : ℚ) + 1)) = _
  simp only [List.map_append, List.sum_append, List.map_cons, List.map_nil,
    List.sum_cons, List.sum_nil, List.length_append, List.length_cons,
    List.length_nil]
  push_cast
  ring_nf

/-- Witness for C1: submitting the ratings [5, 3] to a fresh game yields
count 2 and average 4. -/
theorem C1_sequence_of_reviews_count_and_mean_witness :
    (submitAll (freshGame 0) [Rating.five, Rating.three]).rating.count = 2 ∧
    (submitAll (freshGame 0) [Rating.five, Rating.three]).rating.average = 4 := by
  have h := C1_sequence_of_reviews_count_and_mean 0 [Rating.five, Rating.three]
    (by simp)
  refine ⟨h.1, ?_⟩
  rw [h.2]
  norm_num [Rating.toNat]

/-- C2 (code behaviour at the failing input): create one review with
rating 5 on a fresh game, then delete it. The deletion hook's rescan sees
no remaining active review, takes its `reviews.length > 0` guard's else
path and performs no write, so the game keeps the stale
`rating.average = 5` and `rating.count = 1` instead of being reset to
0 / 0 as the spec requires. -/
theorem C2_delete_last_review_leaves_stale_rating :
    deleteRescan (createReviewPath (freshGame 0) Rating.five) []
      = createReviewPath (freshGame 0) Rating.five ∧
    (deleteRescan (createReviewPath (freshGame 0) Rating.five) []).rating.average = 5 ∧
    (deleteRescan (createReviewPath (freshGame 0) Rating.five) []).rating.count = 1 := by
  refine ⟨rfl, ?_, rfl⟩
  norm_num [deleteRescan, createReviewPath, Game.updateRating, freshGame,
    Distribution.empty, Distribution.bump, Distribution.total]

/-- Folding bucket increments over a list adds the list's length to the
sum of the bucket counts. -/
theorem foldl_bump_bucketSum (l : List Rating) :
    ∀ d : Distribution, (l.foldl Distribution.bump d).bucketSum = d.bucketSum + l.length := by
  induction l with
  | nil => intro d; simp
  | cons r l ih =>
    intro d
    show ((l.foldl Distribution.bump (d.bump r)).bucketSum) = _
    rw [ih, Distribution.bump_bucketSum]
    simp
    omega

/-- The rebuilt distribution of the deletion rescan has bucket counts
summing to the number of remaining reviews. -/
theorem rebuildDistribution_bucketSum (reviews : List Rating) :
    (rebuildDistribution reviews).bucketSum = reviews.length := by
  unfold rebuildDistribution
  rw [foldl_bump_bucketSum]
  simp [Distribution.empty, Distribution.bucketSum]

/-- C3: for every reachable game state, after every rating mutation
(fresh creation, the incremental insert-path update, and the full-rescan
recompute run after a review deletion) the sum of the five distribution
bucket counts equals `rating.count`. -/
theorem C3_bucketSum_eq_count (g : Game) (h : Reachable g) :
    g.rating.distribution.bucketSum = g.rating.count := by
  induction h with
  | fresh cid => rfl
  | @insert g r _ ih =>
    show (g.rating.distribution.bump r).bucketSum = g.rating.count + 1
    rw [Distribution.bump_bucketSum, ih]
  | @delete g reviews _ ih =>
    unfold deleteRescan
    split_ifs with hlen
    · show (rebuildDistribution reviews).bucketSum = reviews.length
      exact rebuildDistribution_bucketSum reviews
    · exact ih

/-- Witness for C3 at the reachable state obtained by one insertion
followed by a deletion rescan with one remaining review. -/
theorem C3_bucketSum_eq_count_witness :
    (deleteRescan (createReviewPath (freshGame 0) Rating.five)
        [Rating.three]).rating.distribution.bucketSum
      = (deleteRescan (createReviewPath (freshGame 0) Rating.five)
        [Rating.three]).rating.count :=
  C3_bucketSum_eq_count _
    (Reachable.delete [Rating.three] (Reachable.insert Rating.five (Reachable.fresh 0)))

/-- A concrete active game under category 7 whose rating average is 4.0
(one 4-star review). -/
def gameA : Game :=
  { freshGame 7 with rating := { average := 4, count := 1, distribution := ⟨0, 0, 0, 1, 0⟩ } }

/-- A concrete active game under category 7 whose rating average is 2.0
(one 2-star review). -/
def gameB : Game :=
  { freshGame 7 with rating := { average := 2, count := 1, distribution := ⟨0, 1, 0, 0, 0⟩ } }

/-- C5: `updateStats` is a pure function of the current set of active
games under the category — it ignores the previously cached stats, and two
game populations with the same matched (category + active) sublist give
the same result — hence running it twice in a row on an unchanged game
population yields the same stats as running it once; and for a category
holding exactly two active games with rating averages 4.0 and 2.0, the
resulting `stats.averageRating` is 3.0 (the unweighted mean of the games'
averages). -/
theorem C5_updateStats_pure_idempotent :
    (∀ cid games s1 s2, updateStats cid games s1 = updateStats cid games s2) ∧
    (∀ cid games s, updateStats cid games (updateStats cid games s)
      = updateStats cid games s) ∧
    (∀ cid games1 games2 s1 s2,
      games1.filter (matchesCategory cid) = games2.filter (matchesCategory cid) →
      updateStats cid games1 s1 = updateStats cid games2 s2) ∧
    (updateStats 7 [gameA, gameB]
      { gameCount := 0, totalPlayCount := 0, averageRating := 0 }).averageRating = 3 := by
  refine ⟨fun _ _ _ _ => rfl, fun _ _ _ => rfl,
    fun cid games1 games2 s1 s2 h => ?_, ?_⟩
  · unfold updateStats
    rw [h]
  · norm_num [updateStats, matchesCategory, gameA, gameB, freshGame,
      List.filter_cons, jsRound]

/-- Witness for C5: two identical one-game populations with different
cached stats give equal results. -/
theorem C5_updateStats_pure_idempotent_witness :
    updateStats 7 [gameA] { gameCount := 0, totalPlayCount := 0, averageRating := 0 }
      = updateStats 7 [gameA] { gameCount := 9, totalPlayCount := 9, averageRating := 9 } :=
  C5_updateStats_pure_idempotent.2.2.1 7 [gameA] [gameA]
    { gameCount := 0, totalPlayCount := 0, averageRating := 0 }
    { gameCount := 9, totalPlayCount := 9, averageRating := 9 } rfl

/-- C7: no average computation divides by zero. A fresh game (no reviews)
carries `count = 0` with `average = 0` rather than an error; the
incremental `updateRating` divides only by `count + 1`, which is nonzero
(its average times that divisor recovers the weighted total exactly); the
deletion-path rescan performs no division when no review remains (it is
the identity there) and divides by the population size, nonzero, when the
remaining population is non-empty; and the category rollup sets
`averageRating` to 0 when the category has no matching active game. -/
theorem C7_no_division_by_zero :
    ((freshGame 0).rating.count = 0 ∧ (freshGame 0).rating.average = 0) ∧
    (∀ g : Game, ∀ r : Rating,
      ((g.rating.count : ℚ) + 1 ≠ 0 ∧
        (g.updateRating r).rating.average * ((g.rating.count : ℚ) + 1)
          = ((g.rating.distribution.bump r).total : ℚ))) ∧
    (∀ g : Game, deleteRescan g [] = g) ∧
    (∀ g : Game, ∀ reviews : List Rating, reviews ≠ [] →
      ((reviews.length : ℚ) ≠ 0 ∧
        (deleteRescan g reviews).rating.average * (reviews.length : ℚ)
          = ((reviews.map Rating.toNat).sum : ℚ))) ∧
    (∀ cid games s, games.filter (matchesCategory cid) = [] →
      (updateStats cid games s).averageRating = 0) := by
  refine ⟨⟨rfl, rfl⟩, fun g r => ⟨?_, ?_⟩, fun g => rfl,
    fun g reviews h => ⟨?_, ?_⟩, fun cid games s h => ?_⟩
  · positivity
  · exact div_mul_cancel₀ _ (by positivity)
  · simpa using h
  · have hlen : reviews.length > 0 := List.length_pos.mpr h
    unfold deleteRescan
    rw [if_pos hlen]
    have : (reviews.length : ℚ) ≠ 0 := by simpa using h
    exact div_mul_cancel₀ _ this
  · unfold updateStats
    rw [h]
    rfl

/-- Witness for C7: the deletion rescan on one remaining 3-star review
divides by 1, and the rollup of an empty population reports 0. -/
theorem C7_no_division_by_zero_witness :
    ((([Rating.three] : List Rating).length : ℚ) ≠ 0 ∧
      (deleteRescan (freshGame 0) [Rating.three]).rating.average
        * (([Rating.three] : List Rating).length : ℚ)
        = ((([Rating.three] : List Rating).map Rating.toNat).sum : ℚ)) ∧
    (updateStats 0 [] { gameCount := 0, totalPlayCount := 0, averageRating := 0 }).averageRating = 0 :=
  ⟨C7_no_division_by_zero.2.2.2.1 (freshGame 0) [Rating.three] (by simp),
   C7_no_division_by_zero.2.2.2.2 0 []
     { gameCount := 0, totalPlayCount := 0, averageRating := 0 } rfl⟩

/-- Marking by a user already in `helpful.users` changes nothing. -/
theorem Review.markHelpful_mem {rv : Review} {u : ℕ}
    (h : u ∈ rv.helpful.users) : rv.markHelpful u = rv := by
  simp [Review.markHelpful, h]

/-- Unmarking by a user not in `helpful.users` changes nothing. -/
theorem Review.unmarkHelpful_not_mem {rv : Review} {u : ℕ}
    (h : u ∉ rv.helpful.users) : rv.unmarkHelpful u = rv := by
  simp [Review.unmarkHelpful, h]

/-- After marking, the user is in `helpful.users`. -/
theorem Review.mem_markHelpful (rv : Review) (u : ℕ) :
    u ∈ (rv.markHelpful u).helpful.users := by
  unfold Review.markHelpful
  split_ifs with h
  · exact h
  · simp

/-- C9: `markHelpful` and `unmarkHelpful` preserve the invariant
`helpful.count == helpful.users.length`, and both are idempotent per
user: marking by a user already in `helpful.users` changes nothing,
unmarking by a user not in it changes nothing, and marking twice equals
marking once, so a user contributes at most one to `helpful.count`. -/
theorem C9_helpful_count_invariant_idempotent :
    (∀ rv : Review, ∀ u : ℕ, rv.helpful.count = rv.helpful.users.length →
      ((rv.markHelpful u).helpful.count = (rv.markHelpful u).helpful.users.length ∧
       (rv.unmarkHelpful u).helpful.count = (rv.unmarkHelpful u).helpful.users.length)) ∧
    (∀ rv : Review, ∀ u : ℕ, u ∈ rv.helpful.users → rv.markHelpful u = rv) ∧
    (∀ rv : Review, ∀ u : ℕ, u ∉ rv.helpful.users → rv.unmarkHelpful u = rv) ∧
    (∀ rv : Review, ∀ u : ℕ, (rv.markHelpful u).markHelpful u = rv.markHelpful u) := by
  refine ⟨fun rv u h => ⟨?_, ?_⟩, fun rv u h => Review.markHelpful_mem h,
    fun rv u h => Review.unmarkHelpful_not_mem h,
    fun rv u => Review.markHelpful_mem (Review.mem_markHelpful rv u)⟩
  · unfold Review.markHelpful
    split_ifs with hm
    · exact h
    · rfl
  · unfold Review.unmarkHelpful
    split_ifs with hm
    · rfl
    · exact h

/-- A concrete review with no helpful votes and no reports. -/
def emptyReview : Review :=
  { rating := Rating.five, helpful := { count := 0, users := [] }, reports := [] }

/-- Witness for C9: the invariant holds after marking and unmarking on a
concrete review, and unmarking an absent user is a no-op there. -/
theorem C9_helpful_count_invariant_idempotent_witness :
    ((emptyReview.markHelpful 1).helpful.count
        = (emptyReview.markHelpful 1).helpful.users.length ∧
      (emptyReview.unmarkHelpful 1).helpful.count
        = (emptyReview.unmarkHelpful 1).helpful.users.length) ∧
    emptyReview.unmarkHelpful 1 = emptyReview :=
  ⟨C9_helpful_count_invariant_idempotent.1 emptyReview 1 rfl,
   C9_helpful_count_invariant_idempotent.2.2.1 emptyReview 1 (by simp [emptyReview])⟩

/-- The number of report entries filed by user `u`. -/
def countReports (reports : List Report) (u : ℕ) : ℕ :=
  (reports.filter (fun rep => rep.user == u)).length

/-- Reporting when the user already has a report entry changes nothing. -/
theorem Review.report_existing {rv : Review} {u : ℕ} (reason descr : String)
    (h : rv.reports.any (fun rep => rep.user == u) = true) :
    rv.report u reason descr = rv := by
  simp [Review.report, h]

/-- C10: reporting a review is idempotent per user: a report call by a
user who already has an entry in `reports` leaves the review unchanged;
reporting twice equals reporting once; and if every user has at most one
entry in `reports`, that stays true after any report call, so each user
appears at most once no matter how often they report. -/
theorem C10_report_idempotent_per_user :
    (∀ rv : Review, ∀ u : ℕ, ∀ reason descr : String,
      rv.reports.any (fun rep => rep.user == u) = true →
      rv.report u reason descr = rv) ∧
    (∀ rv : Review, ∀ u : ℕ, ∀ r1 d1 r2 d2 : String,
      (rv.report u r1 d1).report u r2 d2 = rv.report u r1 d1) ∧
    (∀ rv : Review, ∀ u : ℕ, ∀ reason descr : String,
      (∀ v, countReports rv.reports v ≤ 1) →
      ∀ v, countReports (rv.report u reason descr).reports v ≤ 1) := by
  refine ⟨fun rv u reason descr h => Review.report_existing reason descr h,
    fun rv u r1 d1 r2 d2 => ?_, fun rv u reason descr hb v => ?_⟩
  · by_cases h : rv.reports.any (fun rep => rep.user == u) = true
    · rw [Review.report_existing r1 d1 h, Review.report_existing r2 d2 h]
    · refine Review.report_existing r2 d2 ?_
      simp only [Review.report, if_neg h]
      simp
  · unfold Review.report
    split_ifs with h
    · exact hb v
    · unfold countReports
      rw [List.filter_append, List.length_append]
      have hzero : ∀ rep ∈ rv.reports, ¬(rep.user == u) = true := by
        simpa using h
      by_cases hv : u = v
      · subst hv
        have : rv.reports.filter (fun rep => rep.user == u) = [] :=
          List.filter_eq_nil_iff.mpr hzero
        rw [this]
        simp
      · have : List.filter (fun rep => rep.user == v)
            [({ user := u, reason := reason, description := descr } : Report)] = [] := by
          simp [hv]
        rw [this]
        simpa using hb v

/-- Witness for C10: a duplicate report by user 1 is dropped on a concrete
review that already holds user 1's report, and after one report on a
fresh review every user still has at most one entry. -/
theorem C10_report_idempotent_per_user_witness :
    ({ rating := Rating.one, helpful := { count := 0, users := [] },
       reports := [{ user := 1, reason := "spam", description := "" }] } : Review).report
        1 "spam" ""
      = { rating := Rating.one, helpful := { count := 0, users := [] },
          reports := [{ user := 1, reason := "spam", description := "" }] } ∧
    countReports ((emptyReview.report 1 "spam" "").reports) 1 ≤ 1 :=
  ⟨C10_report_idempotent_per_user.1 _ 1 "spam" "" (by simp),
   C10_report_idempotent_per_user.2.2 emptyReview 1 "spam" ""
     (fun v => by simp [emptyReview, countReports]) 1⟩
